import Mathlib

/-!
# Verification of the EasyReflectometry layer / constraint / binding subsystems

Shallow embedding of the parts of the EasyReflectometry code base that the
claims speak about:

* `LayerApm` / `LayerAreaPerMolecule`
  (`sample/elements/layers/layer_apm.py`, `layer_area_per_molecule.py`):
  a layer whose material sld is kept consistent with the molecular
  scattering length, thickness and area per molecule through functional
  constraints.
* `SurfactantLayer` (`sample/items/surfactant_layer.py`): the shared
  `area_per_molecule` / `roughness` parameters and their object constraints.
* The refnx interface (`EasyReflectometryLib/interfaces/refnx.py`): entity
  creation, `ItemContainer` keys and attribute-name translation tables.
* The interface factory (`interface.py`): `sld_profile` delegation.

Real numbers are embedded as `ℚ`; Python floats carry no semantics the
claims depend on beyond field arithmetic.  Parameter objects are embedded by
their raw values together with the explicit wiring of the constraints that
the source registers on them: a write to a parameter (`.value = v` in the
source) is a state-transition function that also performs the synchronous
constraint propagation the attached, enabled constraints prescribe.
-/

set_option autoImplicit false

namespace EasyReflectometry

/-- Modelled from the spec: `apm_to_sld` (also exported as
`area_per_molecule_to_sld`) lives in `EasyReflectometry/special/calculations.py`,
which is not under `src/`.  The spec fixes it: the material sld equals the
real scattering length of the formula divided by
`(thickness * area_per_molecule)`. -/
def apm_to_sld (scattering_length thickness area_per_molecule : ℚ) : ℚ :=
  scattering_length / (thickness * area_per_molecule)

/-- State of a `LayerApm` layer (`layer_apm.py`): the independent parameters
created in `LayerApm.__init__` (`thickness`, `roughness`,
`_area_per_molecule`, `_scattering_length_real`, `_scattering_length_imag`)
together with the dependent `sld` / `isld` of the inner molecule material,
and the solvated material's `fraction` and `solvation` attributes.

The `fraction` / `solvation_attr` pair embeds the `MaterialSolvated`
attributes read and written by the `solvation` property of `LayerApm`.
Modelled from the spec: `MaterialSolvated` is not under `src/`, and the spec
instructs implementers to treat `solvation` and `fraction` as distinct
attributes until confirmed equal; they are therefore separate fields, both
initialised from the `solvation` constructor argument. -/
structure LayerApmState where
  thickness : ℚ
  roughness : ℚ
  area_per_molecule : ℚ
  scattering_length_real : ℚ
  scattering_length_imag : ℚ
  sld : ℚ
  isld : ℚ
  fraction : ℚ
  solvation_attr : ℚ
  solvent_sld : ℚ
  solvent_isld : ℚ
  deriving DecidableEq, Repr

/-- `LayerApm.__init__`: the scattering lengths come from the molecular
formula (via `neutron_scattering_length`, abstracted into the two rational
inputs), and the inner material is created with
`sld = apm_to_sld(scattering_length_real, thickness, area_per_molecule)` and
`isld = apm_to_sld(scattering_length_imag, thickness, area_per_molecule)`. -/
def layerApm_init (scattering_length_real scattering_length_imag thickness
    solvent_sld solvent_isld solvation area_per_molecule roughness : ℚ) :
    LayerApmState :=
  { thickness := thickness
    roughness := roughness
    area_per_molecule := area_per_molecule
    scattering_length_real := scattering_length_real
    scattering_length_imag := scattering_length_imag
    sld := apm_to_sld scattering_length_real thickness area_per_molecule
    isld := apm_to_sld scattering_length_imag thickness area_per_molecule
    fraction := solvation
    solvation_attr := solvation
    solvent_sld := solvent_sld
    solvent_isld := solvent_isld }

/-- Write `thickness.value`.  `LayerApm.__init__` registers the functional
constraint `apm` (dependent `material.sld`) and `iapm` (dependent
`material.isld`) on `thickness`, so both slds are recomputed. -/
def setThickness (s : LayerApmState) (v : ℚ) : LayerApmState :=
  { s with thickness := v
           sld := apm_to_sld s.scattering_length_real v s.area_per_molecule
           isld := apm_to_sld s.scattering_length_imag v s.area_per_molecule }

/-- Write `area_per_molecule.value`.  Both the `apm` and `iapm` functional
constraints are registered on `area_per_molecule`, so both slds are
recomputed. -/
def setAreaPerMolecule (s : LayerApmState) (v : ℚ) : LayerApmState :=
  { s with area_per_molecule := v
           sld := apm_to_sld s.scattering_length_real s.thickness v
           isld := apm_to_sld s.scattering_length_imag s.thickness v }

/-- Write `scattering_length_real.value`; only the `apm` constraint
(dependent `material.sld`) is registered on it. -/
def setScatteringLengthReal (s : LayerApmState) (v : ℚ) : LayerApmState :=
  { s with scattering_length_real := v
           sld := apm_to_sld v s.thickness s.area_per_molecule }

/-- Write `scattering_length_imag.value`; only the `iapm` constraint
(dependent `material.isld`) is registered on it. -/
def setScatteringLengthImag (s : LayerApmState) (v : ℚ) : LayerApmState :=
  { s with scattering_length_imag := v
           isld := apm_to_sld v s.thickness s.area_per_molecule }

/-- Write `roughness.value`; no constraint is registered on `roughness` in
`LayerApm.__init__`. -/
def setRoughness (s : LayerApmState) (v : ℚ) : LayerApmState :=
  { s with roughness := v }

/-- The `solvation` property getter of `LayerApm` /
`LayerAreaPerMolecule`: `return self.material.fraction`. -/
def solvationGet (s : LayerApmState) : ℚ :=
  s.fraction

/-- The `solvation` property setter of `LayerApm` /
`LayerAreaPerMolecule`: `self.material.solvation = solvation`. -/
def solvationSet (s : LayerApmState) (v : ℚ) : LayerApmState :=
  { s with solvation_attr := v }

/-- State of a `LayerAreaPerMolecule` layer (`layer_area_per_molecule.py`):
identical sld wiring to `LayerApm`, plus the `_coverage` parameter. -/
structure LayerAreaPerMoleculeState extends LayerApmState where
  coverage : ℚ
  deriving DecidableEq, Repr

/-- `LayerAreaPerMolecule.__init__`: same sld / isld construction as
`LayerApm.__init__` (via `area_per_molecule_to_sld`), plus `_coverage`. -/
def layerAreaPerMolecule_init (scattering_length_real scattering_length_imag
    thickness solvent_sld solvent_isld solvation area_per_molecule roughness
    coverage : ℚ) : LayerAreaPerMoleculeState :=
  { layerApm_init scattering_length_real scattering_length_imag thickness
      solvent_sld solvent_isld solvation area_per_molecule roughness with
    coverage := coverage }

/-- Write `area_per_molecule.value` on a `LayerAreaPerMolecule`; the
`area_per_molecule` and `iarea_per_molecule` functional constraints are
registered on it, recomputing both slds. -/
def setAreaPerMoleculeCov (s : LayerAreaPerMoleculeState) (v : ℚ) :
    LayerAreaPerMoleculeState :=
  { s with toLayerApmState := setAreaPerMolecule s.toLayerApmState v }

/-- The invariant the functional constraints maintain: the inner material's
sld is `apm_to_sld` of the current real scattering length, thickness and
area per molecule. -/
def sldConsistent (s : LayerApmState) : Prop :=
  s.sld = apm_to_sld s.scattering_length_real s.thickness s.area_per_molecule

/-- C4: for every `LayerApm` and `LayerAreaPerMolecule`, the inner
material's sld equals
`apm_to_sld(scattering_length_real, thickness, area_per_molecule)` at
construction, and again after any write to an independent parameter of the
`apm` functional constraint (thickness, area per molecule, real scattering
length). -/
theorem layerApm_sld_functional_constraint
    (slr sli t ssld sisld solv apm r cov : ℚ) :
    sldConsistent (layerApm_init slr sli t ssld sisld solv apm r)
    ∧ sldConsistent
        (layerAreaPerMolecule_init slr sli t ssld sisld solv apm r
          cov).toLayerApmState
    ∧ (∀ (s : LayerApmState) (v : ℚ), sldConsistent (setThickness s v))
    ∧ (∀ (s : LayerApmState) (v : ℚ), sldConsistent (setAreaPerMolecule s v))
    ∧ (∀ (s : LayerApmState) (v : ℚ),
        sldConsistent (setScatteringLengthReal s v))
    ∧ (∀ (s : LayerAreaPerMoleculeState) (v : ℚ),
        sldConsistent (setAreaPerMoleculeCov s v).toLayerApmState) :=
  ⟨rfl, rfl, fun _ _ => rfl, fun _ _ => rfl, fun _ _ => rfl, fun _ _ => rfl⟩

/-- C5 as stated is false: writing `area_per_molecule` fires not only the
`apm` constraint (dependent `material.sld`) but also the `iapm` constraint
(dependent `material.isld`).  Concrete input: a layer whose imaginary
scattering length is `1`, thickness `1`, area per molecule `1`; writing
area per molecule `2` changes `isld` from `1` to `1/2`. -/
theorem layerApm_apm_write_touches_isld :
    (setAreaPerMolecule (layerApm_init 4 1 1 0 0 0 1 3) 2).isld
      ≠ (layerApm_init 4 1 1 0 0 0 1 3).isld := by
  simp only [setAreaPerMolecule, layerApm_init, apm_to_sld]
  norm_num

/-- C5 amended: writing a new value to `area_per_molecule` updates the
material's `sld` and `isld` according to the two functional constraints,
and every other parameter of the layer keeps its prior value. -/
theorem layerApm_apm_write_frame (s : LayerApmState) (v : ℚ) :
    (setAreaPerMolecule s v).area_per_molecule = v
    ∧ (setAreaPerMolecule s v).sld
        = apm_to_sld s.scattering_length_real s.thickness v
    ∧ (setAreaPerMolecule s v).isld
        = apm_to_sld s.scattering_length_imag s.thickness v
    ∧ (setAreaPerMolecule s v).thickness = s.thickness
    ∧ (setAreaPerMolecule s v).roughness = s.roughness
    ∧ (setAreaPerMolecule s v).scattering_length_real
        = s.scattering_length_real
    ∧ (setAreaPerMolecule s v).scattering_length_imag
        = s.scattering_length_imag
    ∧ (setAreaPerMolecule s v).fraction = s.fraction
    ∧ (setAreaPerMolecule s v).solvation_attr = s.solvation_attr
    ∧ (setAreaPerMolecule s v).solvent_sld = s.solvent_sld
    ∧ (setAreaPerMolecule s v).solvent_isld = s.solvent_isld :=
  ⟨rfl, rfl, rfl, rfl, rfl, rfl, rfl, rfl, rfl, rfl, rfl⟩

/-- C9: the `solvation` property getter returns the material's `fraction`,
while the setter assigns the material's `solvation` attribute; the two
address different attribute paths, so a write through the setter leaves the
getter's result (the `fraction` attribute) unchanged. -/
theorem layerApm_solvation_getter_setter_mismatch
    (s : LayerApmState) (v : ℚ) :
    solvationGet s = s.fraction
    ∧ (solvationSet s v).solvation_attr = v
    ∧ (solvationSet s v).fraction = s.fraction
    ∧ solvationGet (solvationSet s v) = solvationGet s :=
  ⟨rfl, rfl, rfl, rfl⟩

/-- State of a `SurfactantLayer` (`surfactant_layer.py`): the two `LayerApm`
layers, the dynamically added shared `area_per_molecule` and `roughness`
parameters together with the `hasattr` flags that guard their creation, the
enabled flags of the `apm1` / `apm2` / `roughness1` / `roughness2` object
constraints registered on the shared parameters, and the presence of the
`solvent_roughness` constraint.  Constraint objects are embedded by their
`enabled` flag; the shared parameter fields are meaningful only once the
corresponding `has...` flag is set. -/
structure SurfState where
  layer1 : LayerApmState
  layer2 : LayerApmState
  hasSharedApm : Bool
  shared_apm : ℚ
  shared_apm_enabled : Bool
  apm1_enabled : Bool
  apm2_enabled : Bool
  hasSharedRoughness : Bool
  shared_roughness : ℚ
  rough1_enabled : Bool
  rough2_enabled : Bool
  hasSolventRoughnessConstraint : Bool
  deriving DecidableEq, Repr

/-- `SurfactantLayer.__init__`: neither shared parameter exists yet
(`hasattr` is false for both), so the placeholder fields are inert. -/
def surfactant_init (layer1 layer2 : LayerApmState) : SurfState :=
  { layer1 := layer1
    layer2 := layer2
    hasSharedApm := false
    shared_apm := 0
    shared_apm_enabled := false
    apm1_enabled := false
    apm2_enabled := false
    hasSharedRoughness := false
    shared_roughness := 0
    rough1_enabled := false
    rough2_enabled := false
    hasSolventRoughnessConstraint := false }

/-- The `constrain_apm` property getter: if the shared parameter exists,
both `apm1` and `apm2` must be enabled; otherwise `False`. -/
def get_constrain_apm (s : SurfState) : Bool :=
  s.hasSharedApm && (s.apm1_enabled && s.apm2_enabled)

/-- The `constrain_apm` property setter.  On first use (no shared parameter
yet) it creates the shared `area_per_molecule` parameter from
`layer1.area_per_molecule.raw_value`, writes that value into
`layer2.area_per_molecule` (firing the functional constraints of layer 2),
and registers the `apm1` / `apm2` object constraints; on every use it sets
the two constraints' and the shared parameter's `enabled` flags to `x`. -/
def set_constrain_apm (s : SurfState) (x : Bool) : SurfState :=
  let t :=
    if s.hasSharedApm then s
    else
      { s with hasSharedApm := true
               shared_apm := s.layer1.area_per_molecule
               layer2 := setAreaPerMolecule s.layer2 s.layer1.area_per_molecule }
  { t with apm1_enabled := x
           apm2_enabled := x
           shared_apm_enabled := x }

/-- The `conformal_roughness` property getter. -/
def conformal_roughness (s : SurfState) : Bool :=
  s.hasSharedRoughness && (s.rough1_enabled && s.rough2_enabled)

/-- The `conformal_roughness` property setter; analogous to
`constrain_apm`, except that the shared parameter's own `enabled` flag is
not touched.  Layer roughness carries no constraint of its own, so writing
`layer2.roughness.value` propagates nothing further. -/
def set_conformal_roughness (s : SurfState) (x : Bool) : SurfState :=
  let t :=
    if s.hasSharedRoughness then s
    else
      { s with hasSharedRoughness := true
               shared_roughness := s.layer1.roughness
               layer2 := setRoughness s.layer2 s.layer1.roughness }
  { t with rough1_enabled := x
           rough2_enabled := x }

/-- `SurfactantLayer.constrain_solvent_roughness`: raises `ValueError`
before any mutation when the roughness is not conformal; otherwise writes
the shared roughness value into the given `solvent_roughness` parameter and
registers the `solvent_roughness` object constraint.  The successful result
carries the updated surfactant state and the new value of the
`solvent_roughness` parameter. -/
def constrain_solvent_roughness (s : SurfState) (solvent_roughness : ℚ) :
    Except String (SurfState × ℚ) :=
  if conformal_roughness s then
    Except.ok ({ s with hasSolventRoughnessConstraint := true },
      s.shared_roughness)
  else
    Except.error "Roughness must be conformal to use this function."

/-- A two-assembly world for the cross-assembly claims: two independent
`SurfactantLayer` objects `a` and `b`, plus the optional cross-contrast
object constraints created by `b.constain_multiple_contrast(a, ...)` —
`cross1_apm` (dependent `b.layer1.area_per_molecule`, registered on
`a.layer1.area_per_molecule`) and `cross2_apm` (likewise for the second
layers).  A `false` flag means the constraint was never established. -/
structure TwoSurfactants where
  a : SurfState
  b : SurfState
  cross1_apm : Bool
  cross2_apm : Bool
  deriving DecidableEq, Repr

/-- Write `a.layer1.area_per_molecule.value`: fires layer 1's functional
sld constraints, and, when the cross-contrast constraint is registered on
that parameter, mirrors the value into `b.layer1.area_per_molecule` (whose
own functional constraints fire in turn). -/
def writeLayer1ApmA (w : TwoSurfactants) (v : ℚ) : TwoSurfactants :=
  { w with
    a := { w.a with layer1 := setAreaPerMolecule w.a.layer1 v }
    b :=
      if w.cross1_apm then
        { w.b with layer1 := setAreaPerMolecule w.b.layer1 v }
      else w.b }

/-- Write `a.layer2.area_per_molecule.value`; the mirror image of
`writeLayer1ApmA`. -/
def writeLayer2ApmA (w : TwoSurfactants) (v : ℚ) : TwoSurfactants :=
  { w with
    a := { w.a with layer2 := setAreaPerMolecule w.a.layer2 v }
    b :=
      if w.cross2_apm then
        { w.b with layer2 := setAreaPerMolecule w.b.layer2 v }
      else w.b }

/-- Write the shared `a.area_per_molecule.value`: the `apm1` and `apm2`
object constraints registered on it fire in insertion order when enabled,
each writing the mirrored value into the corresponding layer parameter
(with that parameter's own propagation). -/
def writeSharedApmA (w : TwoSurfactants) (v : ℚ) : TwoSurfactants :=
  let w1 := { w with a := { w.a with shared_apm := v } }
  let w2 := if w1.a.apm1_enabled then writeLayer1ApmA w1 v else w1
  if w2.a.apm2_enabled then writeLayer2ApmA w2 v else w2

/-- A concrete surfactant assembly: layer 1 has area per molecule `50`,
layer 2 has `40`. -/
def demoSurf : SurfState :=
  surfactant_init (layerApm_init 4 0 10 0 0 0 50 3)
    (layerApm_init 5 0 16 0 0 0 40 3)

/-- A concrete two-assembly world: `constrain_apm` has been switched on in
assembly `a`, no cross-contrast constraints exist. -/
def demoWorld : TwoSurfactants :=
  { a := set_constrain_apm demoSurf true
    b := surfactant_init (layerApm_init 5 0 16 0 0 0 40 3)
      (layerApm_init 4 0 10 0 0 0 50 3)
    cross1_apm := false
    cross2_apm := false }

/-- C1 as stated is false: with `constrain_apm = True`, the `apm1` / `apm2`
constraints are registered on the shared assembly parameter, not on
`layer1.area_per_molecule`, so a direct write to
`layer1.area_per_molecule` does not reach `layer2.area_per_molecule`.
Concrete input: `demoWorld` (constraint enabled, both layers at `50`);
writing `60` into layer 1 leaves layer 2 at `50`. -/
theorem surfactant_layer1_write_not_mirrored :
    get_constrain_apm demoWorld.a = true
    ∧ (writeLayer1ApmA demoWorld 60).a.layer1.area_per_molecule = 60
    ∧ (writeLayer1ApmA demoWorld 60).a.layer2.area_per_molecule ≠ 60 := by
  refine ⟨rfl, rfl, ?_⟩
  show (50 : ℚ) ≠ 60
  norm_num

/-- C1 amended: with `constrain_apm` enabled, a write to the assembly's
shared `area_per_molecule` parameter updates both layers'
`area_per_molecule` to that value before the write returns, and leaves the
other assembly unchanged when no cross-contrast constraints were
established via `constain_multiple_contrast`. -/
theorem surfactant_shared_apm_write (w : TwoSurfactants) (v : ℚ)
    (h1 : w.a.apm1_enabled = true) (h2 : w.a.apm2_enabled = true)
    (hc1 : w.cross1_apm = false) (hc2 : w.cross2_apm = false) :
    (writeSharedApmA w v).a.layer1.area_per_molecule = v
    ∧ (writeSharedApmA w v).a.layer2.area_per_molecule = v
    ∧ (writeSharedApmA w v).b = w.b := by
  simp [writeSharedApmA, writeLayer1ApmA, writeLayer2ApmA, h1, h2, hc1, hc2,
    setAreaPerMolecule]

/-- Witness for `surfactant_shared_apm_write` at the concrete `demoWorld`
with value `60`. -/
theorem surfactant_shared_apm_write_witness :
    (writeSharedApmA demoWorld 60).a.layer1.area_per_molecule = 60
    ∧ (writeSharedApmA demoWorld 60).a.layer2.area_per_molecule = 60 :=
  ⟨(surfactant_shared_apm_write demoWorld 60 rfl rfl rfl rfl).1,
   (surfactant_shared_apm_write demoWorld 60 rfl rfl rfl rfl).2.1⟩

/-- C3: calling `constrain_solvent_roughness` while `conformal_roughness`
is not enabled raises (`ValueError`, the spec's `PreconditionError`) before
any mutation: no constraint is created and the `solvent_roughness`
parameter is not written. -/
theorem surfactant_solvent_roughness_precondition (s : SurfState) (sr : ℚ)
    (h : conformal_roughness s = false) :
    constrain_solvent_roughness s sr
      = Except.error "Roughness must be conformal to use this function." := by
  simp [constrain_solvent_roughness, h]

/-- Witness for `surfactant_solvent_roughness_precondition` on the concrete
`demoSurf`, whose roughness was never made conformal. -/
theorem surfactant_solvent_roughness_precondition_witness :
    constrain_solvent_roughness demoSurf 5
      = Except.error "Roughness must be conformal to use this function." :=
  surfactant_solvent_roughness_precondition demoSurf 5 rfl

/-- C10: the first assignment to `constrain_apm` (either boolean) creates
the shared parameter at `layer1.area_per_molecule`'s current value and
overwrites `layer2.area_per_molecule` with that value; every subsequent
assignment only toggles the two constraints' and the shared parameter's
`enabled` flags without rewriting any value; after any assignment of `x`
the getter returns `x`, and it returns `false` before any assignment. -/
theorem surfactant_constrain_apm_protocol (s : SurfState) (x : Bool) :
    (s.hasSharedApm = false →
      (set_constrain_apm s x).shared_apm = s.layer1.area_per_molecule
      ∧ (set_constrain_apm s x).layer2.area_per_molecule
          = s.layer1.area_per_molecule
      ∧ (set_constrain_apm s x).layer1 = s.layer1
      ∧ (set_constrain_apm s x).hasSharedApm = true)
    ∧ (s.hasSharedApm = true →
      (set_constrain_apm s x).layer1 = s.layer1
      ∧ (set_constrain_apm s x).layer2 = s.layer2
      ∧ (set_constrain_apm s x).shared_apm = s.shared_apm)
    ∧ (set_constrain_apm s x).apm1_enabled = x
    ∧ (set_constrain_apm s x).apm2_enabled = x
    ∧ (set_constrain_apm s x).shared_apm_enabled = x
    ∧ get_constrain_apm (set_constrain_apm s x) = x
    ∧ (∀ l1 l2 : LayerApmState,
        get_constrain_apm (surfactant_init l1 l2) = false) := by
  cases hs : s.hasSharedApm <;>
    simp [set_constrain_apm, get_constrain_apm, surfactant_init,
      setAreaPerMolecule, hs]

/-- Witness for `surfactant_constrain_apm_protocol` at the concrete
`demoSurf` with `x = true`: the first assignment copies layer 1's value
`50` into the shared parameter and into layer 2, and the getter then
reads `true`. -/
theorem surfactant_constrain_apm_protocol_witness :
    (set_constrain_apm demoSurf true).shared_apm
        = demoSurf.layer1.area_per_molecule
    ∧ (set_constrain_apm demoSurf true).layer2.area_per_molecule
        = demoSurf.layer1.area_per_molecule
    ∧ get_constrain_apm (set_constrain_apm demoSurf true) = true :=
  ⟨((surfactant_constrain_apm_protocol demoSurf true).1 rfl).1,
   ((surfactant_constrain_apm_protocol demoSurf true).1 rfl).2.1,
   (surfactant_constrain_apm_protocol demoSurf true).2.2.2.2.2.1⟩

/-- Key of an `ItemContainer`: in `Refnx.create` the material, layer and
item branches use the entity's uid, while the model branch passes the
literal string `'model'`. -/
inductive RKey where
  | uid : Nat → RKey
  | str : String → RKey
  deriving DecidableEq, Repr

/-- The `ItemContainer` record returned by `Refnx.create`: the key, the
attribute-name translation table, and the names of the calculator accessor
functions installed as getter and setter. -/
structure ItemContainer where
  key : RKey
  name_map : List (String × String)
  getter : String
  setter : String
  deriving DecidableEq, Repr

/-- `Refnx._material_link` (`refnx.py`, line 22). -/
def _material_link : List (String × String) :=
  [("sld", "real"), ("isld", "imag")]

/-- `Refnx._layer_link` (`refnx.py`, line 24). -/
def _layer_link : List (String × String) :=
  [("thickness", "thick"), ("roughness", "rough")]

/-- `Refnx._item_link` (`refnx.py`, line 26). -/
def _item_link : List (String × String) :=
  [("repetitions", "repeats")]

/-- `Refnx._model_link` (`refnx.py`, line 28). -/
def _model_link : List (String × String) :=
  [("scale", "scale"), ("background", "bkg"), ("resolution", "dq")]

/-- The Material translation table as the spec's backend contract states
it. -/
def spec_material_link : List (String × String) :=
  [("sld", "real"), ("isld", "imag")]

/-- The Layer translation table as the spec states it. -/
def spec_layer_link : List (String × String) :=
  [("thickness", "thick"), ("roughness", "rough")]

/-- The Assembly translation table as the spec states it. -/
def spec_item_link : List (String × String) :=
  [("repetitions", "repeats")]

/-- The Model translation table as the spec states it. -/
def spec_model_link : List (String × String) :=
  [("scale", "scale"), ("background", "bkg"), ("resolution", "dq")]

/-- C8: the refnx backend's attribute-name translation tables are exactly
the four tables the spec lists. -/
theorem refnx_link_tables :
    _material_link = spec_material_link
    ∧ _layer_link = spec_layer_link
    ∧ _item_link = spec_item_link
    ∧ _model_link = spec_model_link :=
  ⟨rfl, rfl, rfl, rfl⟩

/-- The entity kinds `Refnx.create` dispatches on (`Union[Material, Layer,
Item, Model]`); `item` covers both `MultiLayer` and `RepeatingMultiLayer`,
which share one branch.  Each entity carries its uid and the uids of its
already-linked children, in entity-tree order. -/
inductive Entity where
  | material (uid : Nat)
  | layer (uid : Nat) (material_uid : Nat)
  | item (uid : Nat) (layer_uids : List Nat)
  | model (uid : Nat) (item_uids : List Nat)
  deriving DecidableEq, Repr

/-- The calculator calls `Refnx.create` (and the helpers it invokes) issues
to the backend, in order. -/
inductive BackendCall where
  | create_material (uid : Nat)
  | create_layer (uid : Nat)
  | create_item (uid : Nat)
  | create_model
  | assign_material_to_layer (material_uid layer_uid : Nat)
  | add_layer_to_item (layer_uid item_uid : Nat)
  | add_item (item_uid : Nat)
  deriving DecidableEq, Repr

/-- `Refnx.create`: returns the `ItemContainer` list for the entity and the
ordered sequence of backend calls issued.  The material, layer and item
branches key the container by `model.uid`; the model branch keys it by the
string `'model'`.  The item branch iterates `model.layers` in order, the
model branch iterates `model.structure` in order. -/
def refnx_create : Entity → List ItemContainer × List BackendCall
  | .material uid =>
      ([⟨.uid uid, _material_link, "get_material_value", "update_material"⟩],
        [.create_material uid])
  | .layer uid material_uid =>
      ([⟨.uid uid, _layer_link, "get_layer_value", "update_layer"⟩],
        [.create_layer uid, .assign_material_to_layer material_uid uid])
  | .item uid layer_uids =>
      ([⟨.uid uid, _item_link, "get_item_value", "update_item"⟩],
        .create_item uid
          :: layer_uids.map (fun l => .add_layer_to_item l uid))
  | .model _ item_uids =>
      ([⟨.str "model", _model_link, "get_model_value", "update_model"⟩],
        .create_model :: item_uids.map .add_item)

/-- C2 as stated is false: the `ItemContainer` returned for a `Model` does
not carry the model's uid as its key; `Refnx.create` passes the literal
string `'model'`.  Concrete input: a model with uid `7`. -/
theorem refnx_model_container_key_not_uid :
    (refnx_create (.model 7 [])).1.map ItemContainer.key ≠ [RKey.uid 7] := by
  decide

/-- C2 amended: the `ItemContainer` returned by `Refnx.create` carries the
entity's uid as its key for Materials, Layers and assemblies (and that key
is the one all subsequent backend reads and writes go through), while for a
Model the container's key is the literal string `'model'`, not the model's
uid. -/
theorem refnx_container_keys (u m uid : Nat) (ls items : List Nat) :
    (refnx_create (.material u)).1.map ItemContainer.key = [RKey.uid u]
    ∧ (refnx_create (.layer u m)).1.map ItemContainer.key = [RKey.uid u]
    ∧ (refnx_create (.item u ls)).1.map ItemContainer.key = [RKey.uid u]
    ∧ (refnx_create (.model uid items)).1.map ItemContainer.key
        = [RKey.str "model"] :=
  ⟨rfl, rfl, rfl, rfl⟩

/-- Modelled from the spec: the refnx calculator (`Calculators/refnx.py`)
is not under `src/`.  Per the spec's backend contract its storage is keyed
by uid: `create_item` installs an empty layer stack for the uid (newest
entry shadows older ones, association-list style), `add_layer_to_item`
appends the layer uid to the item's stack, `create_model` installs an empty
item stack, and `add_item` appends to it. -/
structure CalcState where
  materials : List Nat
  layers : List Nat
  layer_material : List (Nat × Nat)
  item_layers : List (Nat × List Nat)
  model_items : List Nat
  model_created : Bool
  deriving DecidableEq, Repr

/-- Append a layer uid to the first (newest) stack stored for the item
uid. -/
def addLayerToStack : List (Nat × List Nat) → Nat → Nat → List (Nat × List Nat)
  | [], _, _ => []
  | p :: ps, l, i =>
      if p.1 = i then (p.1, p.2 ++ [l]) :: ps
      else p :: addLayerToStack ps l i

/-- One backend call, as a transition of the calculator storage. -/
def applyCall (st : CalcState) : BackendCall → CalcState
  | .create_material u => { st with materials := st.materials ++ [u] }
  | .create_layer u => { st with layers := st.layers ++ [u] }
  | .create_item u => { st with item_layers := (u, []) :: st.item_layers }
  | .create_model => { st with model_created := true, model_items := [] }
  | .assign_material_to_layer m l =>
      { st with layer_material := (l, m) :: st.layer_material }
  | .add_layer_to_item l i =>
      { st with item_layers := addLayerToStack st.item_layers l i }
  | .add_item i => { st with model_items := st.model_items ++ [i] }

/-- Run a sequence of backend calls. -/
def runCalls (st : CalcState) (cs : List BackendCall) : CalcState :=
  cs.foldl applyCall st

/-- The layer stack the calculator reports for an item uid. -/
def itemLayers (st : CalcState) (u : Nat) : Option (List Nat) :=
  (st.item_layers.find? (fun p => p.1 == u)).map (·.2)

theorem find_addLayerToStack (l : List (Nat × List Nat)) (lu u : Nat)
    (acc : List Nat)
    (h : ((l.find? (fun p => p.1 == u)).map (·.2)) = some acc) :
    (((addLayerToStack l lu u).find? (fun p => p.1 == u)).map (·.2))
      = some (acc ++ [lu]) := by
  induction l with
  | nil => simp at h
  | cons p ps ih =>
      by_cases hp : p.1 = u
      · unfold addLayerToStack
        rw [if_pos hp]
        rw [List.find?_cons_of_pos _ (by simpa using hp)] at h
        rw [List.find?_cons_of_pos _ (by simpa using hp)]
        simp only [Option.map_some', Option.some.injEq] at h ⊢
        rw [h]
      · unfold addLayerToStack
        rw [if_neg hp]
        rw [List.find?_cons_of_neg _ (by simpa using hp)] at h
        rw [List.find?_cons_of_neg _ (by simpa using hp)]
        exact ih h

theorem itemLayers_runAdds (ls : List Nat) (st : CalcState) (u : Nat)
    (acc : List Nat) (h : itemLayers st u = some acc) :
    itemLayers
        (runCalls st (ls.map (fun l => BackendCall.add_layer_to_item l u))) u
      = some (acc ++ ls) := by
  induction ls generalizing st acc with
  | nil => simpa using h
  | cons l ls ih =>
      have step :
          itemLayers (applyCall st (.add_layer_to_item l u)) u
            = some (acc ++ [l]) :=
        find_addLayerToStack st.item_layers l u acc h
      have := ih (applyCall st (.add_layer_to_item l u)) (acc ++ [l]) step
      simpa [runCalls, List.append_assoc] using this

theorem modelItems_runAdds (items : List Nat) (st : CalcState) :
    (runCalls st (items.map BackendCall.add_item)).model_items
      = st.model_items ++ items := by
  induction items generalizing st with
  | nil => simp [runCalls]
  | cons i is ih =>
      have := ih (applyCall st (.add_item i))
      simpa [runCalls, applyCall, List.append_assoc] using this

/-- C7: binding a MultiLayer / RepeatingMultiLayer registers its layers
with the backend in exactly the entity tree's layer order, and binding a
Model registers its assemblies in exactly the sample's assembly order: the
backend-side stacks equal the entity-side uid sequences. -/
theorem refnx_create_preserves_order (u uid : Nat) (ls items : List Nat)
    (st : CalcState) :
    itemLayers (runCalls st (refnx_create (.item u ls)).2) u = some ls
    ∧ (runCalls st (refnx_create (.model uid items)).2).model_items
        = items := by
  constructor
  · have h0 : itemLayers (applyCall st (.create_item u)) u = some [] := by
      simp [itemLayers, applyCall, List.find?]
    simpa [runCalls, refnx_create]
      using itemLayers_runAdds ls (applyCall st (.create_item u)) u [] h0
  · have := modelItems_runAdds items (applyCall st .create_model)
    simpa [runCalls, refnx_create, applyCall] using this

/-- Modelled from the spec: the calculator-side `sld_profile(model_uid)`
returns two equal-length ordered sequences (backend contract, §6), and the
EasyReflectometry interface class for the active backend forwards the model
id to it unchanged.  Neither module is under `src/` (the in-src refnx
interface belongs to the older sibling package `EasyReflectometryLib` and
exposes `sld_profile` without a model id). -/
structure Backend where
  sld_profile : String → List ℚ × List ℚ
  sld_profile_equal_length :
    ∀ model_id, (sld_profile model_id).1.length
      = (sld_profile model_id).2.length

/-- `InterfaceFactory.sld_profile` (`interface.py`, lines 220-221):
`return self().sld_profile(model_id)` — delegation to the active backend
interface with the model id. -/
def interfaceFactory_sld_profile (active : Backend) (model_id : String) :
    List ℚ × List ℚ :=
  active.sld_profile model_id

/-- C6: `sld_profile(model_id)` on the interface factory delegates to the
active backend's `sld_profile` at that model id, and the result is a pair
of two equal-length ordered sequences. -/
theorem interfaceFactory_sld_profile_delegates (active : Backend)
    (model_id : String) :
    interfaceFactory_sld_profile active model_id
        = active.sld_profile model_id
    ∧ (interfaceFactory_sld_profile active model_id).1.length
        = (interfaceFactory_sld_profile active model_id).2.length :=
  ⟨rfl, active.sld_profile_equal_length model_id⟩

end EasyReflectometry
